import Mathlib

/-!
Shallow embedding of `src/nba_app.py` (the CourtVision AI dashboard), covering
the cached data functions `get_todays_games_v4`, `get_defensive_rankings_v4`,
`get_league_trends_v4` and its inner helpers `analyze_matchup` and
`get_status`.

Modelling conventions:
* pandas dataframes become lists of row structures carrying exactly the
  columns the code touches;
* Python floats (player points per game, defensive ratings, the trend delta)
  become `ℚ`; every literal the code compares against (`4.0`, `2.0`, `-3.0`,
  `-1.5`, `116.0`, `112.0`, `114.0`) is exactly representable, so the
  comparison semantics agree with the source on these values;
* Python `dict`s become association lists with the `dict` assignment
  semantics: assigning to an existing key overwrites it in place, assigning a
  fresh key appends it;
* an external fetch that can raise becomes an `Option` input: `none` is the
  fetch raising an exception, `some data` is a successful response;
* team and player ids are `Nat`.  In the source every id is first passed
  through `clean_id`, which maps an integer id `n` to the string
  `str(int(float(n)))`, i.e. the decimal numeral of `n`; that map is injective
  on integer ids, so keying dictionaries by the `Nat` id itself is faithful.
-/

namespace NbaApp

abbrev TeamId := Nat
abbrev PlayerId := Nat

/-- Python `m[k] = v` on an association list: overwrite the value in place
when the key is already present, append the pair otherwise. -/
def dictSet {α : Type} (k : TeamId) (v : α) : List (TeamId × α) → List (TeamId × α)
  | [] => [(k, v)]
  | (k', v') :: rest => if k' = k then (k, v) :: rest else (k', v') :: dictSet k v rest

/-- Python `m[k]` (and the test `k in m`) on an association list. -/
def dictGet {α : Type} (k : TeamId) : List (TeamId × α) → Option α
  | [] => none
  | (k', v) :: rest => if k = k' then some v else dictGet k rest

/-- One row of the daily scoreboard dataframe, restricted to the two columns
`get_todays_games_v4` reads. -/
structure GameRow where
  HOME_TEAM_ID : TeamId
  VISITOR_TEAM_ID : TeamId
deriving Repr, DecidableEq

/-- Body of the per-row loop of `get_todays_games_v4`:
`games[h] = v` followed by `games[v] = h`. -/
def insertGame (games : List (TeamId × TeamId)) (g : GameRow) : List (TeamId × TeamId) :=
  dictSet g.VISITOR_TEAM_ID g.HOME_TEAM_ID (dictSet g.HOME_TEAM_ID g.VISITOR_TEAM_ID games)

/-- `get_todays_games_v4` (src/nba_app.py:140-160).  The input is the list of
scoreboards fetched for the dates of the day window (one list of game rows per
date), or `none` when any part of the fetch raises; the `if not board.empty`
guard of the source is a no-op on the row loop, since iterating an empty board
visits no rows.  On an exception the function returns the empty dict. -/
def get_todays_games_v4 (boards : Option (List (List GameRow))) : List (TeamId × TeamId) :=
  match boards with
  | none => []
  | some bs => bs.foldl (fun games board => board.foldl insertGame games) []

/-- Value stored per team by `get_defensive_rankings_v4`:
`{'Team': ..., 'Rating': ...}`. -/
structure DefEntry where
  Team : String
  Rating : ℚ
deriving Repr, DecidableEq

/-- One row of the `LeagueDashTeamStats` advanced-defense dataframe, restricted
to the columns `get_defensive_rankings_v4` reads. -/
structure TeamStatsRow where
  TEAM_ID : TeamId
  TEAM_NAME : String
  DEF_RATING : ℚ
deriving Repr, DecidableEq

/-- One entry of `static_teams.get_teams()`, restricted to the fields the
fallback branch of `get_defensive_rankings_v4` reads. -/
structure StaticTeam where
  id : TeamId
  abbreviation : String
deriving Repr, DecidableEq

/-- `get_defensive_rankings_v4` (src/nba_app.py:118-138).  On a successful
fetch the rows are sorted by `DEF_RATING` descending and inserted into the
dict (the sort cannot change the resulting dict when team ids are distinct,
and `mergeSort` here stands for pandas `sort_values`); when the fetch raises,
the except-branch builds the fallback map giving every static team the rating
`114.0`. -/
def get_defensive_rankings_v4 (fetch : Option (List TeamStatsRow))
    (nba_teams : List StaticTeam) : List (TeamId × DefEntry) :=
  match fetch with
  | some teams_data =>
      (teams_data.mergeSort (fun a b => decide (b.DEF_RATING ≤ a.DEF_RATING))).foldl
        (fun m row => dictSet row.TEAM_ID ⟨row.TEAM_NAME, row.DEF_RATING⟩ m) []
  | none => nba_teams.foldl (fun m t => dictSet t.id ⟨t.abbreviation, 114⟩ m) []

/-- `analyze_matchup` (src/nba_app.py:177-187), as a function of the two maps
it closes over and of the row's `TEAM_ID`. -/
def analyze_matchup (games : List (TeamId × TeamId)) (defense : List (TeamId × DefEntry))
    (team_id : TeamId) : String :=
  match dictGet team_id games with
  | none => "No Game"
  | some opp_id =>
    match dictGet opp_id defense with
    | some e =>
        if 116 < e.Rating then "vs " ++ e.Team ++ " (🟢 Soft)"
        else if e.Rating < 112 then "vs " ++ e.Team ++ " (🔴 Tough)"
        else "vs " ++ e.Team ++ " (⚪ Avg)"
    | none => "vs ???"

/-- `get_status` (src/nba_app.py:192-198), as a function of the row's
`Trend (Delta)` value. -/
def get_status (d : ℚ) : String :=
  if 4 ≤ d then "🔥 Super Hot"
  else if 2 ≤ d then "🔥 Heating Up"
  else if d ≤ -3 then "❄️ Ice Cold"
  else if d ≤ -(3 / 2) then "❄️ Cooling Down"
  else "Zap"

/-- One row of the season-long `LeagueDashPlayerStats` dataframe, restricted to
the columns `get_league_trends_v4` selects from it. -/
structure SeasonRow where
  PLAYER_ID : PlayerId
  PLAYER_NAME : String
  TEAM_ID : TeamId
  PTS : ℚ
deriving Repr, DecidableEq

/-- One row of the last-5-games `LeagueDashPlayerStats` dataframe, restricted
to the columns `get_league_trends_v4` reads from it. -/
structure L5Row where
  PLAYER_ID : PlayerId
  GP : Nat
  PTS : ℚ
deriving Repr, DecidableEq

/-- One row of the merged dataframe produced by
`pd.merge(season[...], l5[...], on='PLAYER_ID', suffixes=('_Season','_L5'))`. -/
structure MergedRow where
  PLAYER_ID : PlayerId
  PLAYER_NAME : String
  TEAM_ID : TeamId
  PTS_Season : ℚ
  PTS_L5 : ℚ
deriving Repr, DecidableEq

/-- The inner merge on `PLAYER_ID`: each season row, in left order, is paired
with every last-5 row sharing its player id. -/
def mergeTables (season : List SeasonRow) (l5 : List L5Row) : List MergedRow :=
  season.flatMap (fun s =>
    (l5.filter (fun r => decide (r.PLAYER_ID = s.PLAYER_ID))).map (fun r =>
      ⟨s.PLAYER_ID, s.PLAYER_NAME, s.TEAM_ID, s.PTS, r.PTS⟩))

/-- One row of the final trends table, carrying exactly the selected output
columns `['Player', 'Matchup', 'Season PPG', 'Last 5 PPG', 'Trend (Delta)',
'Status']` (the `delta` field is the `Trend (Delta)` column). -/
structure TrendRow where
  Player : String
  Matchup : String
  seasonPPG : ℚ
  last5PPG : ℚ
  delta : ℚ
  Status : String
deriving Repr, DecidableEq

/-- The column list `expected_cols` of `get_league_trends_v4`. -/
def expected_cols : List String :=
  ["Player", "Matchup", "Season PPG", "Last 5 PPG", "Trend (Delta)", "Status"]

/-- The per-row computation of `get_league_trends_v4` after the merge: the
`Trend (Delta)` column, the `Matchup` column via `analyze_matchup`, the column
renames, and the `Status` column via `get_status`. -/
def mkTrendRow (games : List (TeamId × TeamId)) (defense : List (TeamId × DefEntry))
    (m : MergedRow) : TrendRow :=
  { Player := m.PLAYER_NAME
    Matchup := analyze_matchup games defense m.TEAM_ID
    seasonPPG := m.PTS_Season
    last5PPG := m.PTS_L5
    delta := m.PTS_L5 - m.PTS_Season
    Status := get_status (m.PTS_L5 - m.PTS_Season) }

/-- `get_league_trends_v4` (src/nba_app.py:162-203).  The result is the pair
of the column list and the row list of the returned dataframe.  The two player
stat fetches live inside this function's `try`, so either of them raising
lands in the `except` branch, which returns `pd.DataFrame(columns=
expected_cols)` — the empty table with the expected columns.  The games and
defense inputs are passed through to `get_todays_games_v4` and
`get_defensive_rankings_v4`, whose bodies catch their own exceptions and never
raise into this function.  `mergeSort` on the descending-by-delta order stands
for `sort_values(by='Trend (Delta)', ascending=False)`. -/
def get_league_trends_v4 (seasonFetch : Option (List SeasonRow))
    (l5Fetch : Option (List L5Row))
    (boards : Option (List (List GameRow)))
    (defFetch : Option (List TeamStatsRow))
    (nba_teams : List StaticTeam) : List String × List TrendRow :=
  match seasonFetch, l5Fetch with
  | some season, some l5full =>
      let l5 := l5full.filter (fun r => decide (3 ≤ r.GP))
      let merged := mergeTables season l5
      let games := get_todays_games_v4 boards
      let defense := get_defensive_rankings_v4 defFetch nba_teams
      let rows := merged.map (mkTrendRow games defense)
      (expected_cols, rows.mergeSort (fun a b => decide (b.delta ≤ a.delta)))
  | _, _ => (expected_cols, [])

/-- The team ids appearing in a list of scoreboard rows, home and visitor,
in row order. -/
def teamsOf (rows : List GameRow) : List TeamId :=
  rows.flatMap (fun g => [g.HOME_TEAM_ID, g.VISITOR_TEAM_ID])

/-! ## Basic dictionary lemmas -/

theorem dictGet_dictSet_self {α : Type} (k : TeamId) (v : α) (m : List (TeamId × α)) :
    dictGet k (dictSet k v m) = some v := by
  induction m with
  | nil => simp [dictSet, dictGet]
  | cons p rest ih =>
    obtain ⟨k', v'⟩ := p
    by_cases h : k' = k
    · subst h; simp [dictSet, dictGet]
    · have hne : ¬k = k' := fun h' => h h'.symm
      simp [dictSet, dictGet, h, hne, ih]

theorem dictGet_dictSet_ne {α : Type} (k' k : TeamId) (v : α) (m : List (TeamId × α))
    (h : k' ≠ k) : dictGet k' (dictSet k v m) = dictGet k' m := by
  induction m with
  | nil => simp [dictSet, dictGet, h]
  | cons p rest ih =>
    obtain ⟨a, b⟩ := p
    by_cases ha : a = k
    · subst ha; simp [dictSet, dictGet, h, fun h' : k' = a => h h']
    · by_cases hk : k' = a <;> simp [dictSet, dictGet, ha, hk, ih]

theorem dictGet_isSome_dictSet {α : Type} (k k' : TeamId) (v : α) (m : List (TeamId × α)) :
    (dictGet k (dictSet k' v m)).isSome ↔ k = k' ∨ (dictGet k m).isSome := by
  by_cases h : k = k'
  · subst h; simp [dictGet_dictSet_self]
  · rw [dictGet_dictSet_ne _ _ _ _ h]; simp [h]

theorem dictSet_ne_nil {α : Type} (k : TeamId) (v : α) (m : List (TeamId × α)) :
    dictSet k v m ≠ [] := by
  cases m with
  | nil => simp [dictSet]
  | cons p rest => obtain ⟨a, b⟩ := p; by_cases h : a = k <;> simp [dictSet, h]

/-! ## Equation lemmas for `analyze_matchup` -/

theorem analyze_matchup_eq_of_none (games : List (TeamId × TeamId))
    (defense : List (TeamId × DefEntry)) (team_id : TeamId)
    (h : dictGet team_id games = none) :
    analyze_matchup games defense team_id = "No Game" := by
  simp only [analyze_matchup, h]

theorem analyze_matchup_eq_of_entry (games : List (TeamId × TeamId))
    (defense : List (TeamId × DefEntry)) (team_id opp_id : TeamId) (e : DefEntry)
    (hg : dictGet team_id games = some opp_id)
    (hd : dictGet opp_id defense = some e) :
    analyze_matchup games defense team_id =
      if 116 < e.Rating then "vs " ++ e.Team ++ " (🟢 Soft)"
      else if e.Rating < 112 then "vs " ++ e.Team ++ " (🔴 Tough)"
      else "vs " ++ e.Team ++ " (⚪ Avg)" := by
  simp only [analyze_matchup, hg, hd]

theorem analyze_matchup_eq_of_missing (games : List (TeamId × TeamId))
    (defense : List (TeamId × DefEntry)) (team_id opp_id : TeamId)
    (hg : dictGet team_id games = some opp_id)
    (hd : dictGet opp_id defense = none) :
    analyze_matchup games defense team_id = "vs ???" := by
  simp only [analyze_matchup, hg, hd]

/-! ## Claims about `get_status` and `analyze_matchup` -/

/-- C3: `get_status` thresholds its argument into five buckets with inclusive
boundaries: `d ≥ 4` gives the "super hot" label, else `d ≥ 2` "heating up",
else `d ≤ -3` "ice cold", else `d ≤ -1.5` "cooling down", else the neutral
label; the concrete label strings are the ones the source returns. -/
theorem get_status_buckets (d : ℚ) :
    (4 ≤ d → get_status d = "🔥 Super Hot") ∧
    (d < 4 → 2 ≤ d → get_status d = "🔥 Heating Up") ∧
    (d < 2 → d ≤ -3 → get_status d = "❄️ Ice Cold") ∧
    (d < 2 → -3 < d → d ≤ -(3 / 2) → get_status d = "❄️ Cooling Down") ∧
    (-(3 / 2) < d → d < 2 → get_status d = "Zap") := by
  unfold get_status
  refine ⟨fun h1 => ?_, fun h1 h2 => ?_, fun h1 h2 => ?_,
    fun h1 h2 h3 => ?_, fun h1 h2 => ?_⟩
  · rw [if_pos h1]
  · rw [if_neg (by linarith), if_pos h2]
  · rw [if_neg (by linarith), if_neg (by linarith), if_pos h2]
  · rw [if_neg (by linarith), if_neg (by linarith), if_neg (by linarith), if_pos h3]
  · rw [if_neg (by linarith), if_neg (by linarith), if_neg (by linarith),
      if_neg (by linarith)]

/-- Witness for C3 at the four boundary values and one neutral value. -/
theorem get_status_buckets_witness :
    get_status 4 = "🔥 Super Hot" ∧ get_status 2 = "🔥 Heating Up" ∧
    get_status (-3) = "❄️ Ice Cold" ∧ get_status (-(3 / 2)) = "❄️ Cooling Down" ∧
    get_status 0 = "Zap" :=
  ⟨(get_status_buckets 4).1 (by norm_num),
   (get_status_buckets 2).2.1 (by norm_num) (by norm_num),
   (get_status_buckets (-3)).2.2.1 (by norm_num) (by norm_num),
   (get_status_buckets (-(3 / 2))).2.2.2.1 (by norm_num) (by norm_num) (by norm_num),
   (get_status_buckets 0).2.2.2.2 (by norm_num) (by norm_num)⟩

/-- C4: when the player's team is scheduled and the opponent has a defensive
rating entry, `analyze_matchup` buckets the opponent's rating into three fixed
bands: rating above 116 gives the soft label, rating below 112 the tough
label, and a rating between 112 and 116 inclusive the average label. -/
theorem analyze_matchup_bands (games : List (TeamId × TeamId))
    (defense : List (TeamId × DefEntry)) (team_id opp_id : TeamId) (e : DefEntry)
    (hg : dictGet team_id games = some opp_id)
    (hd : dictGet opp_id defense = some e) :
    (116 < e.Rating →
      analyze_matchup games defense team_id = "vs " ++ e.Team ++ " (🟢 Soft)") ∧
    (e.Rating < 112 →
      analyze_matchup games defense team_id = "vs " ++ e.Team ++ " (🔴 Tough)") ∧
    (112 ≤ e.Rating → e.Rating ≤ 116 →
      analyze_matchup games defense team_id = "vs " ++ e.Team ++ " (⚪ Avg)") := by
  rw [analyze_matchup_eq_of_entry games defense team_id opp_id e hg hd]
  refine ⟨fun h1 => ?_, fun h1 => ?_, fun h1 h2 => ?_⟩
  · rw [if_pos h1]
  · rw [if_neg (by linarith), if_pos h1]
  · rw [if_neg (by linarith), if_neg (by linarith)]

/-- Witness for C4: a scheduled team whose opponent rates 120 gets the soft
label. -/
theorem analyze_matchup_bands_witness :
    analyze_matchup [(1, 2)] [(2, ⟨"BOS", 120⟩)] 1 = "vs " ++ "BOS" ++ " (🟢 Soft)" :=
  (analyze_matchup_bands [(1, 2)] [(2, ⟨"BOS", 120⟩)] 1 2 ⟨"BOS", 120⟩
    (by decide) rfl).1 (by norm_num)

/-- C5: a player whose team id is not a key of today's games map is labelled
"No Game", whatever the defensive-rating map holds. -/
theorem analyze_matchup_no_game (games : List (TeamId × TeamId))
    (defense : List (TeamId × DefEntry)) (team_id : TeamId)
    (h : dictGet team_id games = none) :
    analyze_matchup games defense team_id = "No Game" :=
  analyze_matchup_eq_of_none games defense team_id h

/-- Witness for C5: an empty games map with a nonempty defense map. -/
theorem analyze_matchup_no_game_witness :
    analyze_matchup [] [(2, ⟨"BOS", 100⟩)] 1 = "No Game" :=
  analyze_matchup_no_game [] [(2, ⟨"BOS", 100⟩)] 1 rfl

/-- C9: `analyze_matchup` is total over its three-way case split: the result
is "No Game" when the team is not scheduled, a band label naming the opponent
when the opponent's rating is known, and the fallback "vs ???" when the team
is scheduled but the opponent id is missing from the defensive map. -/
theorem analyze_matchup_total (games : List (TeamId × TeamId))
    (defense : List (TeamId × DefEntry)) (team_id : TeamId) :
    (dictGet team_id games = none ∧
      analyze_matchup games defense team_id = "No Game") ∨
    (∃ opp_id, dictGet team_id games = some opp_id ∧
      ((∃ e, dictGet opp_id defense = some e ∧
        (analyze_matchup games defense team_id = "vs " ++ e.Team ++ " (🟢 Soft)" ∨
         analyze_matchup games defense team_id = "vs " ++ e.Team ++ " (🔴 Tough)" ∨
         analyze_matchup games defense team_id = "vs " ++ e.Team ++ " (⚪ Avg)")) ∨
       (dictGet opp_id defense = none ∧
         analyze_matchup games defense team_id = "vs ???"))) := by
  cases hg : dictGet team_id games with
  | none => exact Or.inl ⟨rfl, analyze_matchup_eq_of_none games defense team_id hg⟩
  | some opp_id =>
    refine Or.inr ⟨opp_id, rfl, ?_⟩
    cases hd : dictGet opp_id defense with
    | none =>
      exact Or.inr ⟨rfl, analyze_matchup_eq_of_missing games defense team_id opp_id hg hd⟩
    | some e =>
      refine Or.inl ⟨e, rfl, ?_⟩
      rw [analyze_matchup_eq_of_entry games defense team_id opp_id e hg hd]
      by_cases h1 : 116 < e.Rating
      · exact Or.inl (by rw [if_pos h1])
      · by_cases h2 : e.Rating < 112
        · exact Or.inr (Or.inl (by rw [if_neg h1, if_pos h2]))
        · exact Or.inr (Or.inr (by rw [if_neg h1, if_neg h2]))

/-! ## The fallback defensive map -/

theorem fallback_values (ts : List StaticTeam) (m : List (TeamId × DefEntry))
    (hm : ∀ k e, dictGet k m = some e → e.Rating = 114) (k : TeamId) (e : DefEntry)
    (h : dictGet k (ts.foldl (fun m t => dictSet t.id ⟨t.abbreviation, 114⟩ m) m) = some e) :
    e.Rating = 114 := by
  induction ts generalizing m with
  | nil => exact hm k e h
  | cons t rest ih =>
    refine ih (dictSet t.id ⟨t.abbreviation, 114⟩ m) ?_ h
    intro k' e' h'
    by_cases hk : k' = t.id
    · subst hk
      rw [dictGet_dictSet_self] at h'
      cases h'
      rfl
    · rw [dictGet_dictSet_ne _ _ _ _ hk] at h'
      exact hm k' e' h'

theorem dictGet_isSome_foldl_dictSet (ts : List StaticTeam)
    (m : List (TeamId × DefEntry)) (k : TeamId) (h : (dictGet k m).isSome) :
    (dictGet k (ts.foldl (fun m t => dictSet t.id ⟨t.abbreviation, 114⟩ m) m)).isSome := by
  induction ts generalizing m with
  | nil => exact h
  | cons t rest ih =>
    exact ih _ ((dictGet_isSome_dictSet k t.id _ m).mpr (Or.inr h))

theorem fallback_keys (ts : List StaticTeam) (m : List (TeamId × DefEntry))
    (t : StaticTeam) (ht : t ∈ ts) :
    (dictGet t.id (ts.foldl (fun m t => dictSet t.id ⟨t.abbreviation, 114⟩ m) m)).isSome := by
  induction ts generalizing m with
  | nil => cases ht
  | cons t0 rest ih =>
    rw [List.foldl_cons]
    rcases List.mem_cons.mp ht with h | h
    · subst h
      exact dictGet_isSome_foldl_dictSet rest _ t.id
        (by rw [dictGet_dictSet_self]; rfl)
    · exact ih _ h

theorem foldl_dictSet_defense_ne_nil (ts : List StaticTeam)
    (m : List (TeamId × DefEntry)) (h : m ≠ []) :
    ts.foldl (fun m t => dictSet t.id ⟨t.abbreviation, 114⟩ m) m ≠ [] := by
  induction ts generalizing m with
  | nil => exact h
  | cons t rest ih => exact ih _ (dictSet_ne_nil _ _ _)

/-- C10: when the defensive-stats fetch raises, `get_defensive_rankings_v4`
returns the nonempty fallback map that gives every static team the rating
`114.0`, and since `112 ≤ 114 ≤ 116` every scheduled matchup looked up in
that map gets the average-band label, never the soft or tough one. -/
theorem defensive_fallback (nba_teams : List StaticTeam)
    (games : List (TeamId × TeamId)) (team_id : TeamId) :
    (∀ t ∈ nba_teams, ∃ e : DefEntry,
        dictGet t.id (get_defensive_rankings_v4 none nba_teams) = some e ∧
          e.Rating = 114) ∧
    (nba_teams ≠ [] → get_defensive_rankings_v4 none nba_teams ≠ []) ∧
    (∀ opp_id e, dictGet team_id games = some opp_id →
        dictGet opp_id (get_defensive_rankings_v4 none nba_teams) = some e →
        analyze_matchup games (get_defensive_rankings_v4 none nba_teams) team_id
          = "vs " ++ e.Team ++ " (⚪ Avg)") := by
  refine ⟨?_, ?_, ?_⟩
  · intro t ht
    have hk := fallback_keys nba_teams [] t ht
    obtain ⟨e, he⟩ := Option.isSome_iff_exists.mp hk
    exact ⟨e, he, fallback_values nba_teams [] (by intro k e h; cases h) t.id e he⟩
  · intro hne
    cases nba_teams with
    | nil => exact absurd rfl hne
    | cons t rest =>
      show List.foldl _ _ (t :: rest) ≠ []
      rw [List.foldl_cons]
      exact foldl_dictSet_defense_ne_nil rest _ (dictSet_ne_nil _ _ _)
  · intro opp_id e hg hd
    have hr : e.Rating = 114 :=
      fallback_values nba_teams [] (by intro k e h; cases h) opp_id e hd
    rw [analyze_matchup_eq_of_entry games _ team_id opp_id e hg hd,
      if_neg (by rw [hr]; norm_num), if_neg (by rw [hr]; norm_num)]

/-- Witness for C10: two static teams, team 5 scheduled against team 2; the
fallback map rates team 2 at 114 and the matchup is labelled average. -/
theorem defensive_fallback_witness :
    (∃ e : DefEntry,
        dictGet 2 (get_defensive_rankings_v4 none [⟨1, "ATL"⟩, ⟨2, "BOS"⟩]) = some e ∧
          e.Rating = 114) ∧
    get_defensive_rankings_v4 none [⟨1, "ATL"⟩, ⟨2, "BOS"⟩] ≠ [] ∧
    analyze_matchup [(5, 2), (2, 5)] (get_defensive_rankings_v4 none [⟨1, "ATL"⟩, ⟨2, "BOS"⟩]) 5
      = "vs " ++ "BOS" ++ " (⚪ Avg)" :=
  ⟨(defensive_fallback [⟨1, "ATL"⟩, ⟨2, "BOS"⟩] [(5, 2), (2, 5)] 5).1 ⟨2, "BOS"⟩
      (by decide),
   (defensive_fallback [⟨1, "ATL"⟩, ⟨2, "BOS"⟩] [(5, 2), (2, 5)] 5).2.1 (by decide),
   (defensive_fallback [⟨1, "ATL"⟩, ⟨2, "BOS"⟩] [(5, 2), (2, 5)] 5).2.2 2 ⟨"BOS", 114⟩
      (by decide) rfl⟩

/-! ## The today's-games adjacency -/

theorem foldl_insertGame_flatten (bs : List (List GameRow)) (m : List (TeamId × TeamId)) :
    bs.foldl (fun games board => board.foldl insertGame games) m
      = bs.flatten.foldl insertGame m := by
  induction bs generalizing m with
  | nil => rfl
  | cons b rest ih => rw [List.foldl_cons, ih, List.flatten_cons, List.foldl_append]

theorem dictGet_isSome_insertGame (m : List (TeamId × TeamId)) (g : GameRow) (t : TeamId) :
    (dictGet t (insertGame m g)).isSome ↔
      t = g.HOME_TEAM_ID ∨ t = g.VISITOR_TEAM_ID ∨ (dictGet t m).isSome := by
  unfold insertGame
  rw [dictGet_isSome_dictSet, dictGet_isSome_dictSet]
  tauto

theorem games_keys (rows : List GameRow) (m : List (TeamId × TeamId)) (t : TeamId) :
    (dictGet t (rows.foldl insertGame m)).isSome ↔
      (dictGet t m).isSome ∨ t ∈ teamsOf rows := by
  induction rows generalizing m with
  | nil => simp [teamsOf]
  | cons g rest ih =>
    rw [List.foldl_cons, ih]
    rw [dictGet_isSome_insertGame]
    simp only [teamsOf, List.flatMap_cons, List.mem_append, List.mem_cons,
      List.mem_singleton, List.not_mem_nil, or_false]
    tauto

theorem games_symm_aux (rows : List GameRow) (m : List (TeamId × TeamId))
    (hnd : (teamsOf rows).Nodup)
    (hfresh : ∀ t ∈ teamsOf rows, dictGet t m = none)
    (hm : ∀ t o, dictGet t m = some o → dictGet o m = some t) :
    ∀ t o, dictGet t (rows.foldl insertGame m) = some o →
      dictGet o (rows.foldl insertGame m) = some t := by
  induction rows generalizing m with
  | nil => exact hm
  | cons g rest ih =>
    rw [List.foldl_cons]
    have hmem : ∀ x, x ∈ teamsOf (g :: rest) ↔
        x = g.HOME_TEAM_ID ∨ x = g.VISITOR_TEAM_ID ∨ x ∈ teamsOf rest := by
      intro x
      simp [teamsOf, List.flatMap_cons]
    have hH : g.HOME_TEAM_ID ∈ teamsOf (g :: rest) := (hmem _).mpr (Or.inl rfl)
    have hV : g.VISITOR_TEAM_ID ∈ teamsOf (g :: rest) := (hmem _).mpr (Or.inr (Or.inl rfl))
    have hnd' : (g.HOME_TEAM_ID :: g.VISITOR_TEAM_ID :: teamsOf rest).Nodup := by
      simpa [teamsOf, List.flatMap_cons] using hnd
    have hHV : g.HOME_TEAM_ID ≠ g.VISITOR_TEAM_ID := by
      intro h
      exact (List.nodup_cons.mp hnd').1 (h ▸ List.mem_cons_self _ _)
    have hHrest : g.HOME_TEAM_ID ∉ teamsOf rest := by
      intro h
      exact (List.nodup_cons.mp hnd').1 (List.mem_cons_of_mem _ h)
    have hVrest : g.VISITOR_TEAM_ID ∉ teamsOf rest := by
      intro h
      exact (List.nodup_cons.mp (List.nodup_cons.mp hnd').2).1 h
    have hmH : dictGet g.HOME_TEAM_ID m = none := hfresh _ hH
    have hmV : dictGet g.VISITOR_TEAM_ID m = none := hfresh _ hV
    apply ih
    · exact (List.nodup_cons.mp (List.nodup_cons.mp hnd').2).2
    · intro t htrest
      have htH : t ≠ g.HOME_TEAM_ID := fun h => hHrest (h ▸ htrest)
      have htV : t ≠ g.VISITOR_TEAM_ID := fun h => hVrest (h ▸ htrest)
      unfold insertGame
      rw [dictGet_dictSet_ne _ _ _ _ htV, dictGet_dictSet_ne _ _ _ _ htH]
      exact hfresh t ((hmem t).mpr (Or.inr (Or.inr htrest)))
    · intro t o hto
      by_cases htV : t = g.VISITOR_TEAM_ID
      · subst htV
        rw [insertGame, dictGet_dictSet_self] at hto
        cases hto
        rw [insertGame, dictGet_dictSet_ne _ _ _ _ hHV, dictGet_dictSet_self]
      · by_cases htH : t = g.HOME_TEAM_ID
        · subst htH
          rw [insertGame, dictGet_dictSet_ne _ _ _ _ htV, dictGet_dictSet_self] at hto
          cases hto
          rw [insertGame, dictGet_dictSet_self]
        · rw [insertGame, dictGet_dictSet_ne _ _ _ _ htV,
            dictGet_dictSet_ne _ _ _ _ htH] at hto
          have hot := hm t o hto
          have hoH : o ≠ g.HOME_TEAM_ID := by
            intro h
            rw [h, hmH] at hot
            cases hot
          have hoV : o ≠ g.VISITOR_TEAM_ID := by
            intro h
            rw [h, hmV] at hot
            cases hot
          rw [insertGame, dictGet_dictSet_ne _ _ _ _ hoV, dictGet_dictSet_ne _ _ _ _ hoH]
          exact hot

/-- Counterexample for C8: when a team appears in games on both dates of the
day window (a back-to-back), the later insertion overwrites its opponent and
the map is not a symmetric adjacency.  With the boards `[[(home 1, visitor 2)],
[(home 2, visitor 3)]]` the map sends 1 to 2 but 2 to 3, so
`games[games[1]] ≠ 1`. -/
theorem todays_games_not_symmetric :
    ¬ (∀ t o : TeamId,
        dictGet t (get_todays_games_v4 (some [[⟨1, 2⟩], [⟨2, 3⟩]])) = some o →
        dictGet o (get_todays_games_v4 (some [[⟨1, 2⟩], [⟨2, 3⟩]])) = some t) := by
  intro h
  have h12 := h 1 2 (by decide)
  rw [show dictGet 2 (get_todays_games_v4 (some [[⟨1, 2⟩], [⟨2, 3⟩]])) = some 3 from by
    decide] at h12
  exact absurd h12 (by decide)

/-- C8 (amended): the keys of the today's-games map are exactly the team ids
appearing in some fetched game row; and provided no team id appears twice
across the rows of the day window, the map is a symmetric adjacency:
`games[t]` is itself a key and `games[games[t]] = t`.  Without that proviso a
team playing on both dates keeps only its latest opponent and symmetry can
fail. -/
theorem todays_games_adjacency (bs : List (List GameRow)) :
    (∀ t, (dictGet t (get_todays_games_v4 (some bs))).isSome ↔ t ∈ teamsOf bs.flatten) ∧
    ((teamsOf bs.flatten).Nodup →
      ∀ t o, dictGet t (get_todays_games_v4 (some bs)) = some o →
        dictGet o (get_todays_games_v4 (some bs)) = some t ∧ o ∈ teamsOf bs.flatten) := by
  have hrw : get_todays_games_v4 (some bs) = bs.flatten.foldl insertGame [] :=
    foldl_insertGame_flatten bs []
  constructor
  · intro t
    rw [hrw, games_keys]
    simp [dictGet]
  · intro hnd t o hto
    rw [hrw] at hto
    have hsymm := games_symm_aux bs.flatten [] hnd (fun _ _ => rfl)
      (fun t o h => by cases h) t o hto
    refine ⟨by rw [hrw]; exact hsymm, ?_⟩
    have : (dictGet o (bs.flatten.foldl insertGame [])).isSome := by
      rw [hsymm]; rfl
    rw [games_keys] at this
    rcases this with h | h
    · cases h
    · exact h

/-- Witness for C8 (amended): a single game between teams 1 and 2; the window
has no duplicate teams and the map sends 2 back to 1, with 2 a key. -/
theorem todays_games_adjacency_witness :
    dictGet 2 (get_todays_games_v4 (some [[⟨1, 2⟩]])) = some 1 ∧
      (2 : TeamId) ∈ teamsOf [[⟨1, 2⟩]].flatten :=
  (todays_games_adjacency [[⟨1, 2⟩]]).2 (by decide) 1 2 (by decide)

/-! ## The trends table -/

theorem mem_mergeTables (season : List SeasonRow) (l5 : List L5Row) (m : MergedRow) :
    m ∈ mergeTables season l5 ↔ ∃ s ∈ season, ∃ r ∈ l5, r.PLAYER_ID = s.PLAYER_ID ∧
      m = ⟨s.PLAYER_ID, s.PLAYER_NAME, s.TEAM_ID, s.PTS, r.PTS⟩ := by
  simp only [mergeTables, List.mem_flatMap, List.mem_map, List.mem_filter,
    decide_eq_true_eq]
  constructor
  · rintro ⟨s, hs, r, ⟨hr, hid⟩, rfl⟩
    exact ⟨s, hs, r, hr, hid, rfl⟩
  · rintro ⟨s, hs, r, hr, hid, rfl⟩
    exact ⟨s, hs, r, ⟨hr, hid⟩, rfl⟩

theorem mem_trends (season : List SeasonRow) (l5full : List L5Row)
    (b : Option (List (List GameRow))) (dF : Option (List TeamStatsRow))
    (ts : List StaticTeam) (row : TrendRow) :
    row ∈ (get_league_trends_v4 (some season) (some l5full) b dF ts).2 ↔
      ∃ m ∈ mergeTables season (l5full.filter (fun r => decide (3 ≤ r.GP))),
        mkTrendRow (get_todays_games_v4 b) (get_defensive_rankings_v4 dF ts) m = row := by
  simp only [get_league_trends_v4, List.mem_mergeSort, List.mem_map]

theorem sample_row_mem :
    mkTrendRow (get_todays_games_v4 none) (get_defensive_rankings_v4 (some []) [])
        ⟨7, "A", 3, 20, 26⟩ ∈
      (get_league_trends_v4 (some [⟨7, "A", 3, 20⟩]) (some [⟨7, 5, 26⟩, ⟨8, 2, 30⟩])
        none (some []) []).2 := by
  rw [mem_trends]
  refine ⟨⟨7, "A", 3, 20, 26⟩, ?_, rfl⟩
  rw [mem_mergeTables]
  exact ⟨⟨7, "A", 3, 20⟩, by simp, ⟨7, 5, 26⟩, by simp [List.mem_filter], rfl, rfl⟩

/-- C6: the trends table is sorted non-increasing by the `Trend (Delta)`
column: every row's delta is at least every later row's delta (so in
particular each consecutive pair is ordered). -/
theorem trends_sorted (sF : Option (List SeasonRow)) (l5F : Option (List L5Row))
    (b : Option (List (List GameRow))) (dF : Option (List TeamStatsRow))
    (ts : List StaticTeam) :
    ((get_league_trends_v4 sF l5F b dF ts).2).Pairwise
      (fun a b => b.delta ≤ a.delta) := by
  cases sF with
  | none => cases l5F <;> exact List.Pairwise.nil
  | some season =>
    cases l5F with
    | none => exact List.Pairwise.nil
    | some l5full =>
      show ((_, List.mergeSort _ _).2 : List TrendRow).Pairwise _
      refine List.Pairwise.imp (fun h => of_decide_eq_true h)
        (List.sorted_mergeSort ?_ ?_ _)
      · intro a b c h1 h2
        simp only [decide_eq_true_eq] at h1 h2 ⊢
        exact le_trans h2 h1
      · intro a b
        simp only [Bool.or_eq_true, decide_eq_true_eq]
        exact le_total _ _

/-- C2: every row of the trends table takes its `Season PPG` and `Last 5 PPG`
from a season row and a last-5 row joined on the same player id, and its
`Trend (Delta)` is exactly the last-5 points-per-game minus the season
points-per-game. -/
theorem trends_delta (season : List SeasonRow) (l5full : List L5Row)
    (b : Option (List (List GameRow))) (dF : Option (List TeamStatsRow))
    (ts : List StaticTeam) (row : TrendRow)
    (hrow : row ∈ (get_league_trends_v4 (some season) (some l5full) b dF ts).2) :
    ∃ s ∈ season, ∃ r ∈ l5full, r.PLAYER_ID = s.PLAYER_ID ∧
      row.seasonPPG = s.PTS ∧ row.last5PPG = r.PTS ∧ row.delta = r.PTS - s.PTS := by
  rw [mem_trends] at hrow
  obtain ⟨m, hm, hrw⟩ := hrow
  rw [mem_mergeTables] at hm
  obtain ⟨s, hs, r, hr, hid, hmeq⟩ := hm
  have hr5 : r ∈ l5full := (List.mem_filter.mp hr).1
  refine ⟨s, hs, r, hr5, hid, ?_, ?_, ?_⟩ <;> subst hmeq <;> subst hrw <;> rfl

/-- Witness for C2 at a one-player input: season 20 points, last five 26
points, delta 26 − 20. -/
theorem trends_delta_witness :
    ∃ s ∈ ([⟨7, "A", 3, 20⟩] : List SeasonRow),
      ∃ r ∈ ([⟨7, 5, 26⟩, ⟨8, 2, 30⟩] : List L5Row), r.PLAYER_ID = s.PLAYER_ID ∧
        (mkTrendRow (get_todays_games_v4 none) (get_defensive_rankings_v4 (some []) [])
            ⟨7, "A", 3, 20, 26⟩).seasonPPG = s.PTS ∧
        (mkTrendRow (get_todays_games_v4 none) (get_defensive_rankings_v4 (some []) [])
            ⟨7, "A", 3, 20, 26⟩).last5PPG = r.PTS ∧
        (mkTrendRow (get_todays_games_v4 none) (get_defensive_rankings_v4 (some []) [])
            ⟨7, "A", 3, 20, 26⟩).delta = r.PTS - s.PTS :=
  trends_delta [⟨7, "A", 3, 20⟩] [⟨7, 5, 26⟩, ⟨8, 2, 30⟩] none (some []) []
    (mkTrendRow (get_todays_games_v4 none) (get_defensive_rankings_v4 (some []) [])
      ⟨7, "A", 3, 20, 26⟩) sample_row_mem

/-- C7: the last-5 table is filtered to rows with at least 3 games played
before the join: a row passes the filter exactly when its games-played count
is at least 3, and every row of the trends output is backed by a last-5 row
with games played at least 3; a player whose only last-5 rows have fewer than
3 games played therefore never reaches the output. -/
theorem gp_filter (season : List SeasonRow) (l5full : List L5Row)
    (b : Option (List (List GameRow))) (dF : Option (List TeamStatsRow))
    (ts : List StaticTeam) :
    (∀ row ∈ (get_league_trends_v4 (some season) (some l5full) b dF ts).2,
       ∃ s ∈ season, ∃ r ∈ l5full, r.PLAYER_ID = s.PLAYER_ID ∧ 3 ≤ r.GP ∧
         row.Player = s.PLAYER_NAME ∧ row.last5PPG = r.PTS) ∧
    (∀ r : L5Row,
       r ∈ l5full.filter (fun r => decide (3 ≤ r.GP)) ↔ r ∈ l5full ∧ 3 ≤ r.GP) := by
  constructor
  · intro row hrow
    rw [mem_trends] at hrow
    obtain ⟨m, hm, hrw⟩ := hrow
    rw [mem_mergeTables] at hm
    obtain ⟨s, hs, r, hr, hid, hmeq⟩ := hm
    obtain ⟨hr5, hgp⟩ := List.mem_filter.mp hr
    refine ⟨s, hs, r, hr5, hid, of_decide_eq_true hgp, ?_, ?_⟩ <;>
      subst hmeq <;> subst hrw <;> rfl
  · intro r
    simp [List.mem_filter]

/-- Witness for C7: player 7 (5 games played) passes the filter and appears;
the row of player 8 (2 games played) fails the filter membership test. -/
theorem gp_filter_witness :
    (∃ s ∈ ([⟨7, "A", 3, 20⟩] : List SeasonRow),
      ∃ r ∈ ([⟨7, 5, 26⟩, ⟨8, 2, 30⟩] : List L5Row), r.PLAYER_ID = s.PLAYER_ID ∧
        3 ≤ r.GP ∧
        (mkTrendRow (get_todays_games_v4 none) (get_defensive_rankings_v4 (some []) [])
            ⟨7, "A", 3, 20, 26⟩).Player = s.PLAYER_NAME ∧
        (mkTrendRow (get_todays_games_v4 none) (get_defensive_rankings_v4 (some []) [])
            ⟨7, "A", 3, 20, 26⟩).last5PPG = r.PTS) ∧
    ((⟨8, 2, 30⟩ : L5Row) ∈
        ([⟨7, 5, 26⟩, ⟨8, 2, 30⟩] : List L5Row).filter (fun r => decide (3 ≤ r.GP)) ↔
      (⟨8, 2, 30⟩ : L5Row) ∈ ([⟨7, 5, 26⟩, ⟨8, 2, 30⟩] : List L5Row) ∧
        3 ≤ (⟨8, 2, 30⟩ : L5Row).GP) :=
  ⟨(gp_filter [⟨7, "A", 3, 20⟩] [⟨7, 5, 26⟩, ⟨8, 2, 30⟩] none (some []) []).1
      (mkTrendRow (get_todays_games_v4 none) (get_defensive_rankings_v4 (some []) [])
        ⟨7, "A", 3, 20, 26⟩) sample_row_mem,
   (gp_filter [⟨7, "A", 3, 20⟩] [⟨7, 5, 26⟩, ⟨8, 2, 30⟩] none (some []) []).2
      ⟨8, 2, 30⟩⟩

/-- Counterexample for C1: a failure of the today's-games fetch alone does not
yield the empty table.  With the boards fetch raising (`none`) but both player
stat fetches succeeding, `get_todays_games_v4` swallows its own exception and
returns the empty map, and the trends table still has a row (labelled
"No Game"). -/
theorem trends_games_failure_nonempty :
    (get_league_trends_v4 (some [⟨7, "A", 3, 20⟩]) (some [⟨7, 5, 26⟩, ⟨8, 2, 30⟩])
        none (some []) []).2 ≠ [] :=
  List.ne_nil_of_mem sample_row_mem

/-- C1 (amended): the returned column list is always exactly `expected_cols`,
and an exception in either of the two player-stat fetches — the fetches whose
exceptions actually reach this function's handler — yields the empty table.
Failures of the today's-games and defensive-ratings fetches are absorbed by
those functions' own handlers (empty map, fallback ratings map) and do not
empty the table. -/
theorem trends_failure_empty (sF : Option (List SeasonRow)) (l5F : Option (List L5Row))
    (b : Option (List (List GameRow))) (dF : Option (List TeamStatsRow))
    (ts : List StaticTeam) :
    (get_league_trends_v4 sF l5F b dF ts).1 = expected_cols ∧
    ((sF = none ∨ l5F = none) → (get_league_trends_v4 sF l5F b dF ts).2 = []) := by
  constructor
  · cases sF <;> cases l5F <;> rfl
  · rintro (rfl | rfl)
    · cases l5F <;> rfl
    · cases sF <;> rfl

/-- Witness for C1 (amended): a failed season fetch yields the empty table
with the expected columns. -/
theorem trends_failure_empty_witness :
    (get_league_trends_v4 none (some []) none none []).1 = expected_cols ∧
      (get_league_trends_v4 none (some []) none none []).2 = [] :=
  ⟨(trends_failure_empty none (some []) none none []).1,
   (trends_failure_empty none (some []) none none []).2 (Or.inl rfl)⟩

end NbaApp
